import Mathlib

/-!
Formal model of `src/app/static/js/main.js`, the single source file of the
repository: a client-side UI controller binding an index-trigger button and a
question form to two HTTP endpoints and rendering the JSON responses into the
DOM.

The DOM is modelled as an explicit record of the pieces of page state the
controller reads or writes.  A DOM assignment is tagged by the primitive used:
`Content.html` models `element.innerHTML = raw` (markup-interpreting) and
`Content.text` models `element.textContent = raw` (plain text).  Network
requests are recorded in the state; the outcome of a request cycle is an
explicit `FetchResult` parameter (resolved JSON data, or a rejection carrying
the caught error's message).  Each handler is split into the synchronous part
that runs on the event, the response continuation (`then`/`catch`), and the
`finally` step, composed into a whole-cycle function.  JS numbers carried in
`score` fields are modelled as rationals.
-/

/-- A DOM string assignment, tagged by the primitive that produced it:
`html raw` models `el.innerHTML = raw`, `text raw` models `el.textContent = raw`. -/
inductive Content where
  | html (raw : String)
  | text (raw : String)
deriving DecidableEq

/-- Whether the assignment was markup-interpreting (`innerHTML`). -/
def Content.isHtml : Content → Bool
  | .html _ => true
  | .text _ => false

/-- One element of the `sources` array of a successful `/api/ask` response body. -/
structure Source where
  filename : String
  score : ℚ
deriving DecidableEq

/-- Parsed JSON body of an `/api/index-documents` response. -/
structure IndexData where
  success : Bool
  message : String
deriving DecidableEq

/-- Parsed JSON body of an `/api/ask` response: `success: true` carries `answer`
and an optional `sources` array (`none` models an absent field); `success: false`
carries `message`. -/
inductive AskData where
  | ok (answer : String) (sources : Option (List Source))
  | fail (message : String)
deriving DecidableEq

/-- Outcome of a `fetch(...).then(r => r.json())` chain: `ok` is a resolved,
parsed body; `err e` is a transport or parse rejection whose `error.message`
is `e`. -/
inductive FetchResult (α : Type) where
  | ok (data : α)
  | err (message : String)
deriving DecidableEq

/-- The DOM state the controller touches: the elements bound at start-up
(`indexButton.disabled`, `indexStatus`, `question.value`, `loadingIndicator`
and `answerSection` visibility, `answerContent`, `sourcesList` items), plus
the observable effect log (requests issued, `alert` modals, `console.error`). -/
structure DOMState where
  indexButtonDisabled : Bool
  indexStatus : Content
  indexRequests : Nat
  questionInput : String
  loadingVisible : Bool
  answerVisible : Bool
  answerContent : Content
  sourcesList : List String
  askRequests : List String
  alerts : List String
  consoleErrors : List String
deriving DecidableEq

/-- Synchronous part of the `indexButton` click handler: disable the button,
set the in-progress status via `innerHTML`, and issue the POST request to
`/api/index-documents`. -/
def indexIssue (st : DOMState) : DOMState :=
  { st with
      indexButtonDisabled := true
      indexStatus := .html "<div class=\"alert alert-info\">Indexierung gestartet...</div>"
      indexRequests := st.indexRequests + 1 }

/-- The `then`/`catch` continuation of the index request: on a parsed body,
branch on `data.success` and set the status via `innerHTML`; on rejection,
set an error status via `innerHTML` and log to `console.error`. -/
def indexHandle (st : DOMState) : FetchResult IndexData → DOMState
  | .ok data =>
      if data.success then
        { st with indexStatus := .html ("<div class=\"alert alert-success\">" ++ data.message ++ "</div>") }
      else
        { st with indexStatus := .html ("<div class=\"alert alert-danger\">" ++ data.message ++ "</div>") }
  | .err e =>
      { st with
          indexStatus := .html ("<div class=\"alert alert-danger\">Fehler: " ++ e ++ "</div>")
          consoleErrors := st.consoleErrors ++ ["Fehler: " ++ e] }

/-- The `finally` step of the index cycle: re-enable the button. -/
def indexFinallyStep (st : DOMState) : DOMState :=
  { st with indexButtonDisabled := false }

/-- A whole index-button click cycle, given the request's outcome. -/
def indexCycle (st : DOMState) (r : FetchResult IndexData) : DOMState :=
  indexFinallyStep (indexHandle (indexIssue st) r)

/-- `(x).toFixed(1)` of ECMAScript on an exact rational: the integer `n`
nearest to `x * 10` (ties toward the larger `n`), rendered as `n / 10` with
one digit after the point. -/
def toFixed1 (x : ℚ) : String :=
  let n : ℤ := ⌊x * 10 + 1/2⌋
  let a : ℕ := n.natAbs
  (if n < 0 then "-" else "") ++ toString (a / 10) ++ "." ++ toString (a % 10)

/-- Text of one sources-list entry, as built in the `forEach` body:
`li.textContent = filename + " (Relevanz: " + (score * 100).toFixed(1) + "%)"`. -/
def sourceEntryText (source : Source) : String :=
  source.filename ++ " (Relevanz: " ++ toFixed1 (source.score * 100) ++ "%)"

/-- Rebuild of the sources list: clear it, then either one entry per source
(when `data.sources && data.sources.length > 0`) or the single placeholder
entry. -/
def renderSources : Option (List Source) → List String
  | some sources =>
      if sources.length > 0 then sources.map sourceEntryText
      else ["Keine spezifischen Quellen gefunden."]
  | none => ["Keine spezifischen Quellen gefunden."]

/-- `String.prototype.trim` of ECMAScript: remove leading and trailing
whitespace. -/
def jsTrim (s : String) : String :=
  ⟨((s.data.dropWhile Char.isWhitespace).reverse.dropWhile Char.isWhitespace).reverse⟩

/-- Synchronous part of the question submission past the empty guard: show the
loading indicator, hide the answer section, and issue the POST to `/api/ask`
with body `{ question }`. -/
def askIssue (st : DOMState) (question : String) : DOMState :=
  { st with
      loadingVisible := true
      answerVisible := false
      askRequests := st.askRequests ++ [question] }

/-- The `then`/`catch` continuation of the ask request: on `success`, set the
answer via `textContent`, rebuild the sources list, and reveal the answer
section; on `success: false`, `alert` the message; on rejection, `alert` the
error message and log it. -/
def askHandle (st : DOMState) : FetchResult AskData → DOMState
  | .ok (.ok answer sources) =>
      { st with
          answerContent := .text answer
          sourcesList := renderSources sources
          answerVisible := true }
  | .ok (.fail m) =>
      { st with alerts := st.alerts ++ ["Fehler: " ++ m] }
  | .err e =>
      { st with
          alerts := st.alerts ++ ["Fehler bei der Anfrage: " ++ e]
          consoleErrors := st.consoleErrors ++ ["Fehler: " ++ e] }

/-- The `finally` step of the ask cycle: hide the loading indicator. -/
def askFinallyStep (st : DOMState) : DOMState :=
  { st with loadingVisible := false }

/-- A whole question-form submission cycle, given the request's outcome when
one is issued: trim the input; if empty, `alert` and return without further
effect; otherwise run issue, continuation and `finally`. -/
def questionSubmitCycle (st : DOMState) (r : FetchResult AskData) : DOMState :=
  let question := jsTrim st.questionInput
  if question = "" then
    { st with alerts := st.alerts ++ ["Bitte geben Sie eine Frage ein."] }
  else
    askFinallyStep (askHandle (askIssue st question) r)

/-- A concrete page state with a non-blank question typed in, used to
instantiate the theorems below. -/
def initState : DOMState :=
  { indexButtonDisabled := false
    indexStatus := .text ""
    indexRequests := 0
    questionInput := "Hauptstadt von Frankreich?"
    loadingVisible := false
    answerVisible := false
    answerContent := .text ""
    sourcesList := []
    askRequests := []
    alerts := []
    consoleErrors := [] }

/-- The same page state with a whitespace-only question input. -/
def blankState : DOMState :=
  { initState with questionInput := "   " }

theorem toFixed1_paris_score : toFixed1 ((873:ℚ)/1000 * 100) = "87.3" := by
  have h : (⌊(873:ℚ)/1000 * 100 * 10 + 1/2⌋ : ℤ) = 873 := by norm_num
  unfold toFixed1
  rw [h]
  decide

theorem toFixed1_overrange_score : toFixed1 ((5:ℚ)/2 * 100) = "250.0" := by
  have h : (⌊(5:ℚ)/2 * 100 * 10 + 1/2⌋ : ℤ) = 2500 := by norm_num
  unfold toFixed1
  rw [h]
  decide

/-- Claim C1: on a `success: true` ask response, the handler assigns the answer
string as plain text (`textContent`) and renders one sources-list entry per
source, each reading filename followed by the score times 100 formatted to one
decimal place as a percentage. -/
theorem c1_success_renders_answer_and_sources (st : DOMState) (a : String)
    (srcs : List Source) (h : jsTrim st.questionInput ≠ "") (hne : srcs ≠ []) :
    (questionSubmitCycle st (.ok (.ok a (some srcs)))).answerContent = Content.text a ∧
    (questionSubmitCycle st (.ok (.ok a (some srcs)))).sourcesList =
      srcs.map (fun source =>
        source.filename ++ " (Relevanz: " ++ toFixed1 (source.score * 100) ++ "%)") := by
  have hl : 0 < srcs.length := List.length_pos.mpr hne
  constructor <;>
    simp [questionSubmitCycle, askFinallyStep, askHandle, askIssue, renderSources,
      sourceEntryText, h, hl]

/-- Claim C1 witness: for answer `"Paris"` and the single source
`{filename: "geo.txt", score: 0.873}`, the rendered answer text is `"Paris"`
and the sources list is exactly `["geo.txt (Relevanz: 87.3%)"]`. -/
theorem c1_witness :
    jsTrim initState.questionInput ≠ "" ∧
    (questionSubmitCycle initState
        (.ok (.ok "Paris" (some [⟨"geo.txt", (873:ℚ)/1000⟩])))).answerContent =
      Content.text "Paris" ∧
    (questionSubmitCycle initState
        (.ok (.ok "Paris" (some [⟨"geo.txt", (873:ℚ)/1000⟩])))).sourcesList =
      ["geo.txt (Relevanz: 87.3%)"] := by
  have h : jsTrim initState.questionInput ≠ "" := by decide
  have hne : ([⟨"geo.txt", (873:ℚ)/1000⟩] : List Source) ≠ [] := List.cons_ne_nil _ _
  have hmain := c1_success_renders_answer_and_sources initState "Paris"
    [⟨"geo.txt", (873:ℚ)/1000⟩] h hne
  refine ⟨h, hmain.1, ?_⟩
  rw [hmain.2]
  simp only [List.map]
  rw [toFixed1_paris_score]
  decide

/-- Claim C2: whatever the outcome of the index request cycle (application
success, application failure, or transport failure), the trigger button is
re-enabled when the cycle completes. -/
theorem c2_button_reenabled_every_outcome (st : DOMState) (r : FetchResult IndexData) :
    (indexCycle st r).indexButtonDisabled = false := rfl

/-- Claim C3: a submission whose question input trims to the empty string
shows a modal warning and returns: no request is issued, the loading indicator
is not shown, and the answer section's visibility is unchanged. -/
theorem c3_empty_question_aborts (st : DOMState) (r : FetchResult AskData)
    (h : jsTrim st.questionInput = "") :
    (questionSubmitCycle st r).askRequests = st.askRequests ∧
    (questionSubmitCycle st r).loadingVisible = st.loadingVisible ∧
    (questionSubmitCycle st r).answerVisible = st.answerVisible ∧
    (questionSubmitCycle st r).alerts = st.alerts ++ ["Bitte geben Sie eine Frage ein."] := by
  refine ⟨?_, ?_, ?_, ?_⟩ <;> simp [questionSubmitCycle, h]

/-- Claim C3 witness: submitting with the whitespace-only input `"   "`
issues no request, leaves loading and answer visibility unchanged, and
appends the warning modal. -/
theorem c3_witness :
    jsTrim blankState.questionInput = "" ∧
    (questionSubmitCycle blankState (.err "Netzwerkfehler")).askRequests =
      blankState.askRequests ∧
    (questionSubmitCycle blankState (.err "Netzwerkfehler")).loadingVisible =
      blankState.loadingVisible ∧
    (questionSubmitCycle blankState (.err "Netzwerkfehler")).answerVisible =
      blankState.answerVisible ∧
    (questionSubmitCycle blankState (.err "Netzwerkfehler")).alerts =
      blankState.alerts ++ ["Bitte geben Sie eine Frage ein."] := by
  have h : jsTrim blankState.questionInput = "" := by decide
  have hmain := c3_empty_question_aborts blankState (.err "Netzwerkfehler") h
  exact ⟨h, hmain.1, hmain.2.1, hmain.2.2.1, hmain.2.2.2⟩

/-- Claim C4: on a `success: true` ask response whose sources field is absent
(`none`) or an empty array, the sources list is rebuilt as exactly the single
placeholder entry. -/
theorem c4_placeholder_when_no_sources (st : DOMState) (a : String)
    (h : jsTrim st.questionInput ≠ "") :
    (questionSubmitCycle st (.ok (.ok a none))).sourcesList =
      ["Keine spezifischen Quellen gefunden."] ∧
    (questionSubmitCycle st (.ok (.ok a (some [])))).sourcesList =
      ["Keine spezifischen Quellen gefunden."] := by
  constructor <;>
    simp [questionSubmitCycle, askFinallyStep, askHandle, askIssue, renderSources, h]

/-- Claim C4 witness: at a concrete state and answer, both the absent and
empty sources cases render exactly the placeholder entry. -/
theorem c4_witness :
    jsTrim initState.questionInput ≠ "" ∧
    (questionSubmitCycle initState (.ok (.ok "X" none))).sourcesList =
      ["Keine spezifischen Quellen gefunden."] ∧
    (questionSubmitCycle initState (.ok (.ok "X" (some [])))).sourcesList =
      ["Keine spezifischen Quellen gefunden."] := by
  have h : jsTrim initState.questionInput ≠ "" := by decide
  have hmain := c4_placeholder_when_no_sources initState "X" h
  exact ⟨h, hmain.1, hmain.2⟩

/-- Claim C5: on a `success: false` ask response with message `m`, a modal
alert whose text contains `m` is shown, the answer section stays hidden (it
was hidden at request start), and the loading indicator is hidden at cycle
completion. -/
theorem c5_app_failure_alert_answer_hidden (st : DOMState) (m : String)
    (h : jsTrim st.questionInput ≠ "") :
    (questionSubmitCycle st (.ok (.fail m))).alerts = st.alerts ++ ["Fehler: " ++ m] ∧
    m.data <:+ ("Fehler: " ++ m).data ∧
    (askIssue st (jsTrim st.questionInput)).answerVisible = false ∧
    (questionSubmitCycle st (.ok (.fail m))).answerVisible = false ∧
    (questionSubmitCycle st (.ok (.fail m))).loadingVisible = false := by
  refine ⟨?_, ?_, rfl, ?_, ?_⟩
  · simp [questionSubmitCycle, askFinallyStep, askHandle, askIssue, h]
  · rw [String.data_append]
    exact List.suffix_append _ _
  · simp [questionSubmitCycle, askFinallyStep, askHandle, askIssue, h]
  · simp [questionSubmitCycle, askFinallyStep, askHandle, askIssue, h]

/-- Claim C5 witness: for message `"no index"`, the alert shown is
`"Fehler: no index"` (which contains `"no index"`), the answer section ends
hidden, and the loading indicator ends hidden. -/
theorem c5_witness :
    jsTrim initState.questionInput ≠ "" ∧
    (questionSubmitCycle initState (.ok (.fail "no index"))).alerts =
      initState.alerts ++ ["Fehler: " ++ "no index"] ∧
    ("no index").data <:+ ("Fehler: " ++ "no index").data ∧
    (questionSubmitCycle initState (.ok (.fail "no index"))).answerVisible = false ∧
    (questionSubmitCycle initState (.ok (.fail "no index"))).loadingVisible = false := by
  have h : jsTrim initState.questionInput ≠ "" := by decide
  have hmain := c5_app_failure_alert_answer_hidden initState "no index" h
  exact ⟨h, hmain.1, hmain.2.1, hmain.2.2.2.1, hmain.2.2.2.2⟩

/-- Claim C6: on a transport or parse failure of the index request with error
description `e`, the status area is set to an error message containing `e`,
the error is logged to the console, and the button is re-enabled. -/
theorem c6_index_transport_failure (st : DOMState) (e : String) :
    (indexCycle st (.err e)).indexStatus =
      Content.html ("<div class=\"alert alert-danger\">Fehler: " ++ e ++ "</div>") ∧
    (∃ p q, p ++ e ++ q = "<div class=\"alert alert-danger\">Fehler: " ++ e ++ "</div>") ∧
    (indexCycle st (.err e)).consoleErrors = st.consoleErrors ++ ["Fehler: " ++ e] ∧
    (indexCycle st (.err e)).indexButtonDisabled = false :=
  ⟨rfl, ⟨"<div class=\"alert alert-danger\">Fehler: ", "</div>", rfl⟩, rfl, rfl⟩

/-- Claim C7: the score of a source is rendered with no clamping, rejection,
or validation: for every rational score `s`, in range or not, the rendered
entry is the identical function of `s`, the filename followed by
`toFixed1 (s * 100)` as a percentage. -/
theorem c7_score_formatting_unclamped (st : DOMState) (a fn : String) (s : ℚ)
    (h : jsTrim st.questionInput ≠ "") :
    (questionSubmitCycle st (.ok (.ok a (some [⟨fn, s⟩])))).sourcesList =
      [fn ++ " (Relevanz: " ++ toFixed1 (s * 100) ++ "%)"] ∧
    sourceEntryText ⟨fn, s⟩ = fn ++ " (Relevanz: " ++ toFixed1 (s * 100) ++ "%)" := by
  constructor
  · simp [questionSubmitCycle, askFinallyStep, askHandle, askIssue, renderSources,
      sourceEntryText, h]
  · rfl

/-- Claim C7 witness: the out-of-range score `2.5` is displayed as-is,
yielding the entry `"doc.txt (Relevanz: 250.0%)"`. -/
theorem c7_witness :
    jsTrim initState.questionInput ≠ "" ∧
    (questionSubmitCycle initState
        (.ok (.ok "X" (some [⟨"doc.txt", (5:ℚ)/2⟩])))).sourcesList =
      ["doc.txt (Relevanz: 250.0%)"] := by
  have h : jsTrim initState.questionInput ≠ "" := by decide
  have hmain := c7_score_formatting_unclamped initState "X" "doc.txt" ((5:ℚ)/2) h
  refine ⟨h, ?_⟩
  rw [hmain.1, toFixed1_overrange_score]
  decide

/-- Claim C8: the index button is disabled by the synchronous part of the
click handler, which also issues the request, and is still disabled after the
response continuation runs (for every outcome); only the `finally` step
re-enables it, so the button is never enabled while the request is
outstanding. -/
theorem c8_button_disabled_in_flight (st : DOMState) (r : FetchResult IndexData) :
    (indexIssue st).indexButtonDisabled = true ∧
    (indexIssue st).indexRequests = st.indexRequests + 1 ∧
    (indexHandle (indexIssue st) r).indexButtonDisabled = true := by
  refine ⟨rfl, rfl, ?_⟩
  cases r with
  | ok data => cases data with
    | mk success message => cases success <;> rfl
  | err e => rfl

/-- Claim C9: the index handler writes the server-supplied message (and, on
transport failure, the error description) into the status area with the
markup-interpreting `innerHTML` primitive, while the question handler assigns
the answer with the plain-text `textContent` primitive. -/
theorem c9_status_html_answer_text (st : DOMState) (m e a : String)
    (sources : Option (List Source)) (h : jsTrim st.questionInput ≠ "") :
    (indexHandle st (.ok ⟨true, m⟩)).indexStatus =
      Content.html ("<div class=\"alert alert-success\">" ++ m ++ "</div>") ∧
    (indexHandle st (.ok ⟨false, m⟩)).indexStatus =
      Content.html ("<div class=\"alert alert-danger\">" ++ m ++ "</div>") ∧
    (indexHandle st (.err e)).indexStatus =
      Content.html ("<div class=\"alert alert-danger\">Fehler: " ++ e ++ "</div>") ∧
    ((indexHandle st (.err e)).indexStatus).isHtml = true ∧
    (questionSubmitCycle st (.ok (.ok a sources))).answerContent = Content.text a := by
  refine ⟨rfl, rfl, rfl, rfl, ?_⟩
  simp [questionSubmitCycle, askFinallyStep, askHandle, askIssue, h]

/-- Claim C9 witness: at concrete message, error and answer strings, the
status assignments are `innerHTML`-tagged and the answer assignment is
`textContent`-tagged. -/
theorem c9_witness :
    jsTrim initState.questionInput ≠ "" ∧
    (indexHandle initState (.ok ⟨true, "ok"⟩)).indexStatus =
      Content.html ("<div class=\"alert alert-success\">" ++ "ok" ++ "</div>") ∧
    ((indexHandle initState (.err "boom")).indexStatus).isHtml = true ∧
    (questionSubmitCycle initState (.ok (.ok "Paris" none))).answerContent =
      Content.text "Paris" := by
  have h : jsTrim initState.questionInput ≠ "" := by decide
  have hmain := c9_status_html_answer_text initState "ok" "boom" "Paris" none h
  exact ⟨h, hmain.1, hmain.2.2.2.1, hmain.2.2.2.2⟩

/-- Claim C10: the question handler never writes the question input field:
whatever the outcome of the submission cycle (empty-input abort, success,
application failure, or transport failure), the input's value is unchanged. -/
theorem c10_question_input_preserved (st : DOMState) (r : FetchResult AskData) :
    (questionSubmitCycle st r).questionInput = st.questionInput := by
  by_cases h : jsTrim st.questionInput = ""
  · simp [questionSubmitCycle, h]
  · cases r with
    | ok data => cases data <;> simp [questionSubmitCycle, askFinallyStep, askHandle, askIssue, h]
    | err e => simp [questionSubmitCycle, askFinallyStep, askHandle, askIssue, h]
